import Mathlib

/-!
Verification of the merge-upsert module (`awswrangler/s3/_merge_upsert_table.py`).

A pandas `DataFrame` is modelled as a declared list of column names plus a
list of rows, each row an association list from column name to value.  The
three functions of the module — `_update_existing_table`,
`_is_data_quality_sufficient` and `merge_upsert_table` — are embedded as
executable Lean functions; the external collaborators (Glue catalog, parquet
reader/writer) are modelled as an environment of oracle answers, and the
orchestrator returns a record of the calls it made and the log events it
emitted.
-/

namespace MergeUpsert

/-- A row of a dataframe: a mapping from column name to value,
represented as an association list. -/
abbrev Row (V : Type) := List (String × V)

/-- A pandas dataframe: a declared list of column names and a list of rows. -/
structure DataFrame (V : Type) where
  cols : List String
  rows : List (Row V)
deriving DecidableEq, Repr

variable {V : Type} [DecidableEq V]

/-- The value a row holds in column `c` (`none` when the column is absent,
the analogue of a pandas `NaN` cell). -/
def getCell (r : Row V) (c : String) : Option V :=
  List.lookup c r

/-- The primary-key tuple of a row: the values of the `primary_key` columns,
in key order.  This is what `set_index(keys=primary_key)` uses as the index
and what `DataFrame(df, columns=primary_key).duplicated()` compares. -/
def keyTuple (primary_key : List String) (r : Row V) : List (Option V) :=
  primary_key.map (getCell r)

/-- The list of primary-key tuples of a dataframe, in row order. -/
def keyList (df : DataFrame V) (primary_key : List String) : List (List (Option V)) :=
  df.rows.map (keyTuple primary_key)

/-- `hasDuplicates l = true` iff some element of `l` occurs twice: the model
of `sum(df.duplicated()) != 0` applied to the list of projected rows. -/
def hasDuplicates {α : Type} [DecidableEq α] : List α → Bool
  | [] => false
  | x :: xs => if x ∈ xs then true else hasDuplicates xs

/-- One violation recorded by `_is_data_quality_sufficient` in its
`error_messages` list.  Each constructor stands for one message string the
source appends; the `colsMismatch` payload carries the column lists the
source interpolates into its message. -/
inductive Violation where
  | dupExisting : Violation
  | dupDelta : Violation
  | colsMismatch (deltaCols existingCols : List String) : Violation
deriving DecidableEq, Repr

/-- The `error_messages` list built by `_is_data_quality_sufficient`:
three independent checks, each appending one violation, none short-circuited.
The column check mirrors the source condition
`existing_df.shape[1] != delta_df.shape[1] or
 len(existing_df.columns.intersection(delta_df.columns)) != existing_df.shape[1]`,
with `Index.intersection` modelled as order-preserving deduplicated filter. -/
def error_messages (existing_df delta_df : DataFrame V) (primary_key : List String) :
    List Violation :=
  (if hasDuplicates (keyList existing_df primary_key) then [Violation.dupExisting] else []) ++
  (if hasDuplicates (keyList delta_df primary_key) then [Violation.dupDelta] else []) ++
  (if existing_df.cols.length ≠ delta_df.cols.length ∨
      ((existing_df.cols.filter fun c => decide (c ∈ delta_df.cols)).dedup).length ≠
        existing_df.cols.length
   then [Violation.colsMismatch delta_df.cols existing_df.cols] else [])

/-- `_is_data_quality_sufficient`: returns `len(error_messages) == 0`.
Only the boolean leaves the function; the violation list stays internal. -/
def _is_data_quality_sufficient (existing_df delta_df : DataFrame V)
    (primary_key : List String) : Bool :=
  (error_messages existing_df delta_df primary_key).length == 0

/-- The ways `DataFrame.set_index(keys, drop=False, verify_integrity=True)`
can raise: a `KeyError` when a key column is absent, or the
`verify_integrity` duplicate-label error. -/
inductive SetIndexError where
  | missingKey : SetIndexError
  | duplicateIndex : SetIndexError
deriving DecidableEq, Repr

/-- `df.set_index(keys=primary_key, drop=False, verify_integrity=True)`:
fails on a missing key column, fails on duplicate index entries, and
otherwise leaves columns and rows unchanged (`drop=False`); the index it
attaches is recoverable as `keyTuple`, so it is not stored separately. -/
def set_index (df : DataFrame V) (primary_key : List String) :
    Except SetIndexError (DataFrame V) :=
  if ∀ c ∈ primary_key, c ∈ df.cols then
    if hasDuplicates (keyList df primary_key) then Except.error SetIndexError.duplicateIndex
    else Except.ok df
  else Except.error SetIndexError.missingKey

/-- Column list of `pandas.concat [e, d]`: the columns of `e` followed by the
columns of `d` not already present. -/
def unionCols (l m : List String) : List String :=
  l ++ m.filter fun c => decide (c ∉ l)

/-- The rows of the merged frame:
`concat([existing_df[~existing_df.index.isin(delta_df.index)], delta_df])`
— existing rows whose key tuple does not occur among the delta key tuples,
followed by all delta rows.  `reset_index(drop=True)` then discards the
index, leaving rows and columns as they are (`drop=False` kept the key
columns in the rows). -/
def mergedRows (existing_df delta_df : DataFrame V) (primary_key : List String) :
    List (Row V) :=
  (existing_df.rows.filter fun r =>
    decide (keyTuple primary_key r ∉ keyList delta_df primary_key)) ++ delta_df.rows

/-- The in-memory part of `_update_existing_table`: the two `set_index`
calls (each may raise) followed by the filter-and-concat merge and
`reset_index(drop=True)`.  The subsequent catalog lookup and parquet write
are modelled in the orchestrator. -/
def _update_existing_table (existing_df delta_df : DataFrame V)
    (primary_key : List String) : Except SetIndexError (DataFrame V) :=
  match set_index existing_df primary_key with
  | Except.error e => Except.error e
  | Except.ok e' =>
    match set_index delta_df primary_key with
    | Except.error e => Except.error e
    | Except.ok d' =>
      Except.ok ⟨unionCols e'.cols d'.cols, mergedRows e' d' primary_key⟩

/-- A log event emitted by the module.  Each constructor stands for one
logging statement of the source; payloads carry the interpolated data. -/
inductive LogEvent where
  | successUpserted (database table : String) : LogEvent
  | tableNotFound (database table : String) : LogEvent
  | unknownLogicalState : LogEvent
deriving DecidableEq, Repr

/-- The answers the external collaborators would give during one invocation
of `merge_upsert_table`: the results of the first and (if reached) second
`wr.catalog.does_table_exist` call, the table `wr.s3.read_parquet_table`
returns, and the location `wr.catalog.get_table_location` returns. -/
structure CatalogEnv (V : Type) where
  exists1 : Bool
  exists2 : Bool
  storedTable : DataFrame V
  location : String
deriving DecidableEq, Repr

/-- The externally observable outcome of one `merge_upsert_table` call:
which collaborator calls were made, what was written where, the log events
emitted, and whether an exception propagated out. -/
structure RunResult (V : Type) where
  existCalls : Nat
  readCalled : Bool
  locationCalled : Bool
  writeCalled : Bool
  writtenTable : Option (DataFrame V)
  writtenLocation : Option String
  log : List LogEvent
  raised : Bool
deriving DecidableEq, Repr

/-- `merge_upsert_table(delta_df, database, table, primary_key)` over the
oracle environment `env`:
first `does_table_exist` call; if truthy, read the existing table, run the
quality gate, and only on `is True` run `_update_existing_table` (which on
success looks up the location, writes the parquet dataset in overwrite mode
and logs the success message, and on a `set_index` error raises before
either of those calls).  If the first existence call is falsy the `elif`
re-queries `does_table_exist`; `is False` logs table-not-found, anything
else falls to the `else` logging the unknown-logical-state message. -/
def merge_upsert_table (env : CatalogEnv V) (delta_df : DataFrame V)
    (database table : String) (primary_key : List String) : RunResult V :=
  if env.exists1 then
    if _is_data_quality_sufficient env.storedTable delta_df primary_key then
      match _update_existing_table env.storedTable delta_df primary_key with
      | Except.ok m =>
        ⟨1, true, true, true, some m, some env.location,
         [LogEvent.successUpserted database table], false⟩
      | Except.error _ =>
        ⟨1, true, false, false, none, none, [], true⟩
    else
      ⟨1, true, false, false, none, none, [], false⟩
  else if env.exists2 = false then
    ⟨2, false, false, false, none, none, [LogEvent.tableNotFound database table], false⟩
  else
    ⟨2, false, false, false, none, none, [LogEvent.unknownLogicalState], false⟩

/-! ### Helper lemmas -/

theorem hasDuplicates_eq_false {α : Type} [DecidableEq α] (l : List α) :
    hasDuplicates l = false ↔ l.Nodup := by
  induction l with
  | nil => simp [hasDuplicates]
  | cons x xs ih =>
    by_cases hx : x ∈ xs <;> simp [hasDuplicates, hx, ih]

theorem filter_key_eq_nil {α β : Type} [DecidableEq β] (f : α → β) (l : List α)
    (b : β) (hb : b ∉ l.map f) :
    (l.filter fun a => decide (f a = b)) = [] := by
  rw [List.filter_eq_nil_iff]
  intro a ha
  simp only [decide_eq_true_eq]
  intro hfa
  exact hb (hfa ▸ List.mem_map_of_mem f ha)

theorem length_filter_key {α β : Type} [DecidableEq β] (f : α → β) (l : List α)
    (b : β) (hnd : (l.map f).Nodup) (hb : b ∈ l.map f) :
    (l.filter fun a => decide (f a = b)).length = 1 := by
  induction l with
  | nil => simp at hb
  | cons x xs ih =>
    simp only [List.map_cons, List.nodup_cons] at hnd
    rcases List.mem_cons.mp hb with hbx | hbxs
    · subst hbx
      rw [List.filter_cons_of_pos (by simp), filter_key_eq_nil f xs (f x) hnd.1]
      rfl
    · have hne : f x ≠ b := fun h => hnd.1 (h ▸ hbxs)
      rw [List.filter_cons_of_neg (by simpa using hne)]
      exact ih hnd.2 hbxs

theorem if_singleton_eq_nil {α : Type} (c : Prop) [Decidable c] (v : α) :
    (if c then [v] else []) = [] ↔ ¬c := by
  split <;> simp_all

theorem gate_iff_empty (e d : DataFrame V) (pk : List String) :
    _is_data_quality_sufficient e d pk = true ↔ error_messages e d pk = [] := by
  simp [_is_data_quality_sufficient, List.length_eq_zero]

theorem gate_iff_checks (e d : DataFrame V) (pk : List String) :
    _is_data_quality_sufficient e d pk = true ↔
      (hasDuplicates (keyList e pk) = false ∧ hasDuplicates (keyList d pk) = false ∧
       e.cols.length = d.cols.length ∧
       ((e.cols.filter fun c => decide (c ∈ d.cols)).dedup).length = e.cols.length) := by
  rw [gate_iff_empty]
  unfold error_messages
  rw [List.append_eq_nil, List.append_eq_nil,
    if_singleton_eq_nil, if_singleton_eq_nil, if_singleton_eq_nil]
  simp only [not_or, not_not, Bool.not_eq_true]
  tauto

theorem gate_keys {e d : DataFrame V} {pk : List String}
    (hq : _is_data_quality_sufficient e d pk = true) :
    (keyList e pk).Nodup ∧ (keyList d pk).Nodup := by
  have h := (gate_iff_checks e d pk).mp hq
  exact ⟨(hasDuplicates_eq_false _).mp h.1, (hasDuplicates_eq_false _).mp h.2.1⟩

theorem gate_cols {e d : DataFrame V} {pk : List String}
    (hq : _is_data_quality_sufficient e d pk = true) :
    e.cols.Nodup ∧ d.cols.Nodup ∧ (∀ c, c ∈ e.cols ↔ c ∈ d.cols) ∧
      unionCols e.cols d.cols = e.cols := by
  obtain ⟨-, -, hlen, hded⟩ := (gate_iff_checks e d pk).mp hq
  have hfl : (e.cols.filter fun c => decide (c ∈ d.cols)).length ≤ e.cols.length :=
    List.length_filter_le _ _
  have hdl : ((e.cols.filter fun c => decide (c ∈ d.cols)).dedup).length ≤
      (e.cols.filter fun c => decide (c ∈ d.cols)).length :=
    (List.dedup_sublist _).length_le
  have hflen : (e.cols.filter fun c => decide (c ∈ d.cols)).length = e.cols.length :=
    le_antisymm hfl (hded ▸ hdl)
  have hfeq : e.cols.filter (fun c => decide (c ∈ d.cols)) = e.cols :=
    (List.filter_sublist _).eq_of_length hflen
  have hdeq : e.cols.dedup = e.cols := by
    apply (List.dedup_sublist _).eq_of_length
    rw [hfeq] at hded
    exact hded
  have hNe : e.cols.Nodup := hdeq ▸ List.nodup_dedup e.cols
  have hsub : e.cols ⊆ d.cols := fun c hc =>
    of_decide_eq_true (List.filter_eq_self.mp hfeq c hc)
  have hperm : e.cols.Perm d.cols :=
    (hNe.subperm hsub).perm_of_length_le (le_of_eq hlen.symm)
  have hNd : d.cols.Nodup := hperm.nodup hNe
  refine ⟨hNe, hNd, fun c => hperm.mem_iff, ?_⟩
  have hnil : d.cols.filter (fun c => decide (c ∉ e.cols)) = [] := by
    rw [List.filter_eq_nil_iff]
    intro c hc
    simp only [decide_eq_true_eq, not_not]
    exact hperm.mem_iff.mpr hc
  unfold unionCols
  rw [hnil, List.append_nil]

theorem set_index_ok {df : DataFrame V} {pk : List String}
    (hp : ∀ c ∈ pk, c ∈ df.cols) (hnd : hasDuplicates (keyList df pk) = false) :
    set_index df pk = Except.ok df := by
  unfold set_index
  rw [if_pos hp]
  simp [hnd]

theorem set_index_ok_inv {df df' : DataFrame V} {pk : List String}
    (h : set_index df pk = Except.ok df') : df' = df := by
  unfold set_index at h
  split at h
  · split at h
    · cases h
    · cases h; rfl
  · cases h

theorem update_ok {e d : DataFrame V} {pk : List String}
    (hpe : ∀ c ∈ pk, c ∈ e.cols) (hpd : ∀ c ∈ pk, c ∈ d.cols)
    (hq : _is_data_quality_sufficient e d pk = true) :
    _update_existing_table e d pk =
      Except.ok ⟨unionCols e.cols d.cols, mergedRows e d pk⟩ := by
  have h := (gate_iff_checks e d pk).mp hq
  unfold _update_existing_table
  rw [set_index_ok hpe h.1, set_index_ok hpd h.2.1]

theorem update_ok_inv {e d m : DataFrame V} {pk : List String}
    (h : _update_existing_table e d pk = Except.ok m) :
    m = ⟨unionCols e.cols d.cols, mergedRows e d pk⟩ := by
  unfold _update_existing_table at h
  cases he : set_index e pk with
  | error err => rw [he] at h; cases h
  | ok e' =>
    rw [he] at h
    cases hd : set_index d pk with
    | error err => rw [hd] at h; cases h
    | ok d' =>
      rw [hd] at h
      obtain rfl := set_index_ok_inv he
      obtain rfl := set_index_ok_inv hd
      cases h
      rfl

theorem mergedRows_filter_key (e d : DataFrame V) (pk : List String)
    (k : List (Option V)) :
    (mergedRows e d pk).filter (fun r => decide (keyTuple pk r = k)) =
      (if k ∈ keyList d pk
       then d.rows.filter fun r => decide (keyTuple pk r = k)
       else e.rows.filter fun r => decide (keyTuple pk r = k)) := by
  unfold mergedRows
  rw [List.filter_append]
  by_cases hk : k ∈ keyList d pk
  · rw [if_pos hk]
    have h1 : (e.rows.filter fun r => decide (keyTuple pk r ∉ keyList d pk)).filter
        (fun r => decide (keyTuple pk r = k)) = [] := by
      rw [List.filter_eq_nil_iff]
      intro r hr
      have hq := List.of_mem_filter hr
      simp only [decide_eq_true_eq] at hq ⊢
      intro hrk
      exact hq (hrk ▸ hk)
    rw [h1, List.nil_append]
  · rw [if_neg hk]
    have h2 : d.rows.filter (fun r => decide (keyTuple pk r = k)) = [] :=
      filter_key_eq_nil _ _ _ hk
    rw [h2, List.append_nil, List.filter_filter]
    apply List.filter_congr
    intro r hr
    by_cases hrk : keyTuple pk r = k
    · simp [hrk, hk]
    · simp [hrk]

/-- C1: for every existing table and delta batch that pass the quality gate
(and whose primary-key columns are present, as the gate's contract assumes),
`_update_existing_table` succeeds and the merged table contains exactly one
row per primary-key tuple in the union of existing and delta keys; the rows
holding a key are exactly the delta rows holding it when the key occurs in
the delta batch, and exactly the existing rows holding it otherwise — so the
surviving row equals the delta row in full, else the untouched existing row.
Every merged row's key comes from that union, so no other rows appear. -/
theorem upsert_key_coverage (e d : DataFrame V) (pk : List String)
    (hpe : ∀ c ∈ pk, c ∈ e.cols) (hpd : ∀ c ∈ pk, c ∈ d.cols)
    (hq : _is_data_quality_sufficient e d pk = true) :
    ∃ m, _update_existing_table e d pk = Except.ok m ∧
      (∀ r ∈ m.rows, keyTuple pk r ∈ keyList e pk ∨ keyTuple pk r ∈ keyList d pk) ∧
      ∀ k, k ∈ keyList e pk ∨ k ∈ keyList d pk →
        (m.rows.filter fun r => decide (keyTuple pk r = k)).length = 1 ∧
        (m.rows.filter fun r => decide (keyTuple pk r = k)) =
          (if k ∈ keyList d pk
           then d.rows.filter fun r => decide (keyTuple pk r = k)
           else e.rows.filter fun r => decide (keyTuple pk r = k)) := by
  refine ⟨⟨unionCols e.cols d.cols, mergedRows e d pk⟩, update_ok hpe hpd hq, ?_, ?_⟩
  · intro r hr
    rcases List.mem_append.mp hr with hre | hrd
    · exact Or.inl (List.mem_map_of_mem _ (List.mem_of_mem_filter hre))
    · exact Or.inr (List.mem_map_of_mem _ hrd)
  · intro k hk
    have hfk := mergedRows_filter_key e d pk k
    refine ⟨?_, hfk⟩
    rw [hfk]
    by_cases hkd : k ∈ keyList d pk
    · rw [if_pos hkd]
      exact length_filter_key _ _ _ (gate_keys hq).2 hkd
    · rw [if_neg hkd]
      exact length_filter_key _ _ _ (gate_keys hq).1 (hk.resolve_right hkd)

theorem mergedRows_keys_nodup (e d : DataFrame V) (pk : List String)
    (hq : _is_data_quality_sufficient e d pk = true) :
    ((mergedRows e d pk).map (keyTuple pk)).Nodup := by
  unfold mergedRows
  rw [List.map_append, List.nodup_append]
  refine ⟨((gate_keys hq).1).sublist (List.Sublist.map _ (List.filter_sublist _)),
    (gate_keys hq).2, ?_⟩
  intro a ha
  obtain ⟨r, hr, rfl⟩ := List.mem_map.mp ha
  have hQ := List.of_mem_filter hr
  simpa [keyList] using hQ

theorem mergedRows_filter_notin_delta (e d : DataFrame V) (pk : List String) :
    (mergedRows e d pk).filter (fun r => decide (keyTuple pk r ∉ keyList d pk)) =
      e.rows.filter (fun r => decide (keyTuple pk r ∉ keyList d pk)) := by
  unfold mergedRows
  rw [List.filter_append, List.filter_filter]
  have h1 : d.rows.filter (fun r => decide (keyTuple pk r ∉ keyList d pk)) = [] := by
    rw [List.filter_eq_nil_iff]
    intro r hr
    simp only [decide_eq_true_eq, not_not]
    exact List.mem_map_of_mem _ hr
  rw [h1, List.append_nil]
  exact List.filter_congr fun r hr => Bool.and_self _

/-- C6: for every existing table and delta batch that pass the quality gate
(primary-key columns present, as the gate's contract assumes), merging the
delta and then re-merging the same delta batch into the result reproduces
the first merge's result — here even as the identical dataframe, columns and
row order included, which subsumes equality as a set of rows. -/
theorem upsert_idempotent (e d : DataFrame V) (pk : List String)
    (hpe : ∀ c ∈ pk, c ∈ e.cols) (hpd : ∀ c ∈ pk, c ∈ d.cols)
    (hq : _is_data_quality_sufficient e d pk = true) :
    ∃ m, _update_existing_table e d pk = Except.ok m ∧
         _update_existing_table m d pk = Except.ok m := by
  obtain ⟨hNe, hNd, hmem, hunion⟩ := gate_cols hq
  refine ⟨⟨unionCols e.cols d.cols, mergedRows e d pk⟩, update_ok hpe hpd hq, ?_⟩
  have hm_nodup : hasDuplicates
      (keyList (⟨unionCols e.cols d.cols, mergedRows e d pk⟩ : DataFrame V) pk) = false :=
    (hasDuplicates_eq_false _).mpr (mergedRows_keys_nodup e d pk hq)
  have hpm : ∀ c ∈ pk, c ∈ unionCols e.cols d.cols := by
    intro c hc
    rw [hunion]
    exact hpe c hc
  have hd_nodup : hasDuplicates (keyList d pk) = false :=
    ((gate_iff_checks e d pk).mp hq).2.1
  have hcols : unionCols (unionCols e.cols d.cols) d.cols = unionCols e.cols d.cols := by
    rw [hunion]
    exact hunion
  have hrows : mergedRows (⟨unionCols e.cols d.cols, mergedRows e d pk⟩ : DataFrame V) d pk
      = mergedRows e d pk := by
    have hstep : mergedRows (⟨unionCols e.cols d.cols, mergedRows e d pk⟩ : DataFrame V) d pk
        = (mergedRows e d pk).filter
            (fun r => decide (keyTuple pk r ∉ keyList d pk)) ++ d.rows := rfl
    rw [hstep, mergedRows_filter_notin_delta]
    rfl
  unfold _update_existing_table
  rw [set_index_ok hpm hm_nodup, set_index_ok hpd hd_nodup]
  simp only [Except.ok.injEq, DataFrame.mk.injEq]
  exact ⟨hcols, hrows⟩

/-- C8: for every existing table and delta batch that pass the quality gate,
the merged table's column list equals the existing table's column list (so in
particular the column sets agree, no column is added or removed), and the
primary-key columns — present in the existing table per the gate's contract —
remain ordinary columns of the output. -/
theorem upsert_column_invariance (e d m : DataFrame V) (pk : List String)
    (hq : _is_data_quality_sufficient e d pk = true)
    (hm : _update_existing_table e d pk = Except.ok m)
    (hpk : ∀ c ∈ pk, c ∈ e.cols) :
    m.cols = e.cols ∧ ∀ c ∈ pk, c ∈ m.cols := by
  obtain rfl := update_ok_inv hm
  have hunion := (gate_cols hq).2.2.2
  refine ⟨hunion, fun c hc => ?_⟩
  show c ∈ unionCols e.cols d.cols
  rw [hunion]
  exact hpk c hc

/-- C9: whenever `_is_data_quality_sufficient` returns true, neither
`set_index(..., verify_integrity=True)` call of `_update_existing_table`
can fail with the duplicate-index error: that error branch is unreachable
under the gate's precondition. -/
theorem gate_precludes_duplicate_index (e d : DataFrame V) (pk : List String)
    (hq : _is_data_quality_sufficient e d pk = true) :
    set_index e pk ≠ Except.error SetIndexError.duplicateIndex ∧
    set_index d pk ≠ Except.error SetIndexError.duplicateIndex := by
  have h := (gate_iff_checks e d pk).mp hq
  constructor <;> unfold set_index <;> split
  · simp [h.1]
  · simp
  · simp [h.2.1]
  · simp

/-- C2: for dataframes of the data model (distinct declared column names)
and a non-empty primary key present in both, `_is_data_quality_sufficient`
returns true iff the existing table has no duplicate primary-key tuples,
the delta batch has no duplicate primary-key tuples, and the two column
sets coincide (order irrelevant). -/
theorem gate_iff_quality (e d : DataFrame V) (pk : List String)
    (hWe : e.cols.Nodup) (hWd : d.cols.Nodup) (_hpk : pk ≠ [])
    (_hpe : ∀ c ∈ pk, c ∈ e.cols) (_hpd : ∀ c ∈ pk, c ∈ d.cols) :
    _is_data_quality_sufficient e d pk = true ↔
      ((keyList e pk).Nodup ∧ (keyList d pk).Nodup ∧
       ∀ c, c ∈ e.cols ↔ c ∈ d.cols) := by
  constructor
  · intro hq
    exact ⟨(gate_keys hq).1, (gate_keys hq).2, (gate_cols hq).2.2.1⟩
  · rintro ⟨h1, h2, h3⟩
    rw [gate_iff_checks]
    have hperm : e.cols.Perm d.cols := (List.perm_ext_iff_of_nodup hWe hWd).mpr h3
    refine ⟨(hasDuplicates_eq_false _).mpr h1, (hasDuplicates_eq_false _).mpr h2,
      hperm.length_eq, ?_⟩
    have hfeq : e.cols.filter (fun c => decide (c ∈ d.cols)) = e.cols := by
      rw [List.filter_eq_self]
      intro c hc
      exact decide_eq_true ((h3 c).mp hc)
    rw [hfeq, List.dedup_eq_self.mpr hWe]

/-- C7 (amended): `_is_data_quality_sufficient` evaluates all three checks
without short-circuiting, accumulating every violation present in the inputs
into its internal `error_messages` list, and returns true exactly when that
list is empty — but it returns only the boolean verdict; the violation list
itself never leaves the function. -/
theorem gate_accumulates_all_violations (e d : DataFrame V) (pk : List String) :
    (_is_data_quality_sufficient e d pk = true ↔ error_messages e d pk = []) ∧
    (Violation.dupExisting ∈ error_messages e d pk ↔
      hasDuplicates (keyList e pk) = true) ∧
    (Violation.dupDelta ∈ error_messages e d pk ↔
      hasDuplicates (keyList d pk) = true) ∧
    (Violation.colsMismatch d.cols e.cols ∈ error_messages e d pk ↔
      (e.cols.length ≠ d.cols.length ∨
       ((e.cols.filter fun c => decide (c ∈ d.cols)).dedup).length ≠
         e.cols.length)) := by
  refine ⟨gate_iff_empty e d pk, ?_, ?_, ?_⟩ <;>
    · unfold error_messages
      by_cases h1 : hasDuplicates (keyList e pk) = true <;>
        by_cases h2 : hasDuplicates (keyList d pk) = true <;>
          by_cases h3 : (e.cols.length ≠ d.cols.length ∨
              ((e.cols.filter fun c => decide (c ∈ d.cols)).dedup).length ≠
                e.cols.length) <;>
        simp [h1, h2, h3]

/-- C3: when the table exists but the quality gate fails,
`merge_upsert_table` stops before any durable mutation: the catalog-location
lookup and the parquet writer are never invoked and nothing is written. -/
theorem gate_failure_no_mutation (env : CatalogEnv V) (delta_df : DataFrame V)
    (database table : String) (pk : List String)
    (h1 : env.exists1 = true)
    (h2 : _is_data_quality_sufficient env.storedTable delta_df pk = false) :
    (merge_upsert_table env delta_df database table pk).locationCalled = false ∧
    (merge_upsert_table env delta_df database table pk).writeCalled = false ∧
    (merge_upsert_table env delta_df database table pk).writtenTable = none ∧
    (merge_upsert_table env delta_df database table pk).writtenLocation = none := by
  simp [merge_upsert_table, h1, h2]

/-- C4 (amended): when the quality gate fails, `merge_upsert_table` returns
normally — no fault is raised — but it emits no diagnostic at all: the log
stays empty and the operation silently does not proceed. -/
theorem gate_failure_silent (env : CatalogEnv V) (delta_df : DataFrame V)
    (database table : String) (pk : List String)
    (h1 : env.exists1 = true)
    (h2 : _is_data_quality_sufficient env.storedTable delta_df pk = false) :
    (merge_upsert_table env delta_df database table pk).log = [] ∧
    (merge_upsert_table env delta_df database table pk).raised = false ∧
    (merge_upsert_table env delta_df database table pk).writeCalled = false := by
  simp [merge_upsert_table, h1, h2]

/-- C5: when the catalog reports the target table absent (both existence
probes), `merge_upsert_table` emits the table-not-found diagnostic and
stops: no read, no location lookup, no write, nothing written, no implicit
table creation, and no fault raised. -/
theorem table_not_found_no_action (env : CatalogEnv V) (delta_df : DataFrame V)
    (database table : String) (pk : List String)
    (h1 : env.exists1 = false) (h2 : env.exists2 = false) :
    (merge_upsert_table env delta_df database table pk).log =
      [LogEvent.tableNotFound database table] ∧
    (merge_upsert_table env delta_df database table pk).readCalled = false ∧
    (merge_upsert_table env delta_df database table pk).locationCalled = false ∧
    (merge_upsert_table env delta_df database table pk).writeCalled = false ∧
    (merge_upsert_table env delta_df database table pk).writtenTable = none ∧
    (merge_upsert_table env delta_df database table pk).raised = false := by
  simp [merge_upsert_table, h1, h2]

/-- C10: the existence check is performed once when the first probe answers
true and twice otherwise; the table is read iff the first probe answers
true; when the first probe answers false nothing is looked up, written or
merged; the table-not-found diagnostic appears iff both probes answer
false; and the unknown-logical-state diagnostic appears iff the two probes
disagree as false-then-true — so it is unreachable whenever they agree. -/
theorem existence_check_paths (env : CatalogEnv V) (delta_df : DataFrame V)
    (database table : String) (pk : List String) :
    (merge_upsert_table env delta_df database table pk).existCalls =
      (if env.exists1 then 1 else 2) ∧
    (merge_upsert_table env delta_df database table pk).readCalled = env.exists1 ∧
    ((!env.exists1 &&
      ((merge_upsert_table env delta_df database table pk).locationCalled ||
       (merge_upsert_table env delta_df database table pk).writeCalled ||
       (merge_upsert_table env delta_df database table pk).writtenTable.isSome)) =
      false) ∧
    (LogEvent.tableNotFound database table ∈
        (merge_upsert_table env delta_df database table pk).log ↔
      (env.exists1 = false ∧ env.exists2 = false)) ∧
    (LogEvent.unknownLogicalState ∈
        (merge_upsert_table env delta_df database table pk).log ↔
      (env.exists1 = false ∧ env.exists2 = true)) := by
  cases h1 : env.exists1
  · cases h2 : env.exists2 <;> simp [merge_upsert_table, h1, h2]
  · by_cases hg : _is_data_quality_sufficient env.storedTable delta_df pk = true
    · cases hu : _update_existing_table env.storedTable delta_df pk <;>
        simp [merge_upsert_table, h1, hg, hu]
    · simp [merge_upsert_table, h1, hg]

/-! ### Concrete sample data for witnesses and counterexamples -/

/-- A clean existing table: two rows, distinct keys. -/
def exOk : DataFrame Nat :=
  ⟨["id", "v"], [[("id", 1), ("v", 10)], [("id", 2), ("v", 20)]]⟩

/-- A clean delta batch: updates key 2, inserts key 3. -/
def dOk : DataFrame Nat :=
  ⟨["id", "v"], [[("id", 2), ("v", 99)], [("id", 3), ("v", 30)]]⟩

/-- The merge of `exOk` and `dOk` on key `id`. -/
def mOk : DataFrame Nat :=
  ⟨["id", "v"],
   [[("id", 1), ("v", 10)], [("id", 2), ("v", 99)], [("id", 3), ("v", 30)]]⟩

/-- An existing table with a duplicated primary key. -/
def exDup : DataFrame Nat :=
  ⟨["id", "v"], [[("id", 1), ("v", 10)], [("id", 1), ("v", 11)]]⟩

/-- A clean one-row delta batch. -/
def dOne : DataFrame Nat := ⟨["id", "v"], [[("id", 2), ("v", 20)]]⟩

/-- A clean one-row existing table. -/
def exOne : DataFrame Nat := ⟨["id", "v"], [[("id", 1), ("v", 10)]]⟩

/-- A delta batch with a duplicated primary key. -/
def dDup : DataFrame Nat :=
  ⟨["id", "v"], [[("id", 2), ("v", 20)], [("id", 2), ("v", 21)]]⟩

/-- Environment: table exists, clean stored table. -/
def envOk : CatalogEnv Nat := ⟨true, true, exOk, "s3://bucket/tbl"⟩

/-- Environment: table exists, stored table with duplicate keys, so the
quality gate fails. -/
def envGateFail : CatalogEnv Nat := ⟨true, true, exDup, "s3://bucket/tbl"⟩

/-- Environment: both existence probes report the table absent. -/
def envMissing : CatalogEnv Nat := ⟨false, false, exOk, "s3://bucket/tbl"⟩

/-! ### Witnesses and counterexamples -/

/-- Witness for C1 at a concrete upsert. -/
theorem upsert_key_coverage_witness :
    ∃ m, _update_existing_table exOk dOk ["id"] = Except.ok m ∧
      (∀ r ∈ m.rows, keyTuple ["id"] r ∈ keyList exOk ["id"] ∨
        keyTuple ["id"] r ∈ keyList dOk ["id"]) ∧
      ∀ k, k ∈ keyList exOk ["id"] ∨ k ∈ keyList dOk ["id"] →
        (m.rows.filter fun r => decide (keyTuple ["id"] r = k)).length = 1 ∧
        (m.rows.filter fun r => decide (keyTuple ["id"] r = k)) =
          (if k ∈ keyList dOk ["id"]
           then dOk.rows.filter fun r => decide (keyTuple ["id"] r = k)
           else exOk.rows.filter fun r => decide (keyTuple ["id"] r = k)) :=
  upsert_key_coverage exOk dOk ["id"] (by decide) (by decide) (by decide)

/-- Witness for C2 at a concrete pair of frames. -/
theorem gate_iff_quality_witness :
    _is_data_quality_sufficient exOk dOk ["id"] = true ↔
      ((keyList exOk ["id"]).Nodup ∧ (keyList dOk ["id"]).Nodup ∧
       ∀ c, c ∈ exOk.cols ↔ c ∈ dOk.cols) :=
  gate_iff_quality exOk dOk ["id"] (by decide) (by decide) (by decide)
    (by decide) (by decide)

/-- Witness for C3: a failing gate on an existing table leaves location
lookup and writer untouched. -/
theorem gate_failure_no_mutation_witness :
    (merge_upsert_table envGateFail dOne "db" "tbl" ["id"]).locationCalled = false ∧
    (merge_upsert_table envGateFail dOne "db" "tbl" ["id"]).writeCalled = false ∧
    (merge_upsert_table envGateFail dOne "db" "tbl" ["id"]).writtenTable = none ∧
    (merge_upsert_table envGateFail dOne "db" "tbl" ["id"]).writtenLocation = none :=
  gate_failure_no_mutation envGateFail dOne "db" "tbl" ["id"] (by decide) (by decide)

/-- Counterexample for C4 as stated: at this concrete input the quality gate
fails, yet the operation emits no diagnostic whatsoever — the failure is not
reported. -/
theorem gate_failure_silent_cex :
    _is_data_quality_sufficient exDup dOne ["id"] = false ∧
    (merge_upsert_table envGateFail dOne "db" "tbl" ["id"]).log = [] := by
  decide

/-- Witness for the amended C4. -/
theorem gate_failure_silent_witness :
    (merge_upsert_table envGateFail dOne "db" "tbl" ["id"]).log = [] ∧
    (merge_upsert_table envGateFail dOne "db" "tbl" ["id"]).raised = false ∧
    (merge_upsert_table envGateFail dOne "db" "tbl" ["id"]).writeCalled = false :=
  gate_failure_silent envGateFail dOne "db" "tbl" ["id"] (by decide) (by decide)

/-- Witness for C5: absent table, diagnostic emitted, nothing touched. -/
theorem table_not_found_no_action_witness :
    (merge_upsert_table envMissing dOne "db" "tbl" ["id"]).log =
      [LogEvent.tableNotFound "db" "tbl"] ∧
    (merge_upsert_table envMissing dOne "db" "tbl" ["id"]).readCalled = false ∧
    (merge_upsert_table envMissing dOne "db" "tbl" ["id"]).locationCalled = false ∧
    (merge_upsert_table envMissing dOne "db" "tbl" ["id"]).writeCalled = false ∧
    (merge_upsert_table envMissing dOne "db" "tbl" ["id"]).writtenTable = none ∧
    (merge_upsert_table envMissing dOne "db" "tbl" ["id"]).raised = false :=
  table_not_found_no_action envMissing dOne "db" "tbl" ["id"] (by decide) (by decide)

/-- Witness for C6 at a concrete upsert. -/
theorem upsert_idempotent_witness :
    ∃ m, _update_existing_table exOk dOk ["id"] = Except.ok m ∧
         _update_existing_table m dOk ["id"] = Except.ok m :=
  upsert_idempotent exOk dOk ["id"] (by decide) (by decide) (by decide)

/-- Counterexample for C7 as stated: two input pairs with different
violation lists (each non-empty) on which `_is_data_quality_sufficient`
returns the very same value — the operation returns only its boolean
verdict, so the violation list is not part of what it returns. -/
theorem gate_drops_violation_list_cex :
    _is_data_quality_sufficient exDup dOne ["id"] =
      _is_data_quality_sufficient exOne dDup ["id"] ∧
    error_messages exDup dOne ["id"] ≠ error_messages exOne dDup ["id"] ∧
    error_messages exDup dOne ["id"] ≠ [] ∧
    error_messages exOne dDup ["id"] ≠ [] := by
  decide

/-- Witness for C8 at a concrete upsert. -/
theorem upsert_column_invariance_witness :
    mOk.cols = exOk.cols ∧ ∀ c ∈ ["id"], c ∈ mOk.cols :=
  upsert_column_invariance exOk dOk mOk ["id"] (by decide) (by rfl) (by decide)

/-- Witness for C9 at a concrete pair of frames. -/
theorem gate_precludes_duplicate_index_witness :
    set_index exOk ["id"] ≠ Except.error SetIndexError.duplicateIndex ∧
    set_index dOk ["id"] ≠ Except.error SetIndexError.duplicateIndex :=
  gate_precludes_duplicate_index exOk dOk ["id"] (by decide)

end MergeUpsert
